import Mathlib

/-!
Verification of the test-report chatbot (`train_model.py` + `app.py`).

The Python sources are shallowly embedded below: dictionaries holding
fields of known type become structures, Python's insertion-ordered
`dict` becomes an association list with in-place update (`upsert`),
Python's truthiness-based `or` becomes explicit helper functions, and
the regex-driven query router is modelled at whitespace-token
granularity (a message is its list of lower-cased, single-space
separated words; `\b` word boundaries are modelled per token).
-/

set_option maxRecDepth 4000

/-! ## Python string helpers -/

/-- Python `str.strip()`: drop leading and trailing whitespace. -/
def pyStrip (s : String) : String :=
  String.mk (((s.data.dropWhile Char.isWhitespace).reverse.dropWhile Char.isWhitespace).reverse)

/-- Python `str.lower()`. -/
def pyLower (s : String) : String :=
  String.mk (s.data.map Char.toLower)

/-- Python `str.replace(c, "")`: remove every occurrence of a character. -/
def removeChar (s : String) (c : Char) : String :=
  String.mk (s.data.filter (fun x => x ≠ c))

/-- Python `str.replace(c, d)` for single characters. -/
def swapChar (s : String) (c d : Char) : String :=
  String.mk (s.data.map (fun x => if x = c then d else x))

/-- Python `str.strip(chars)`: drop a given character from both ends. -/
def stripChar (s : String) (c : Char) : String :=
  String.mk (((s.data.dropWhile (fun x => x = c)).reverse.dropWhile (fun x => x = c)).reverse)

/-- Python truthiness-based `a or b` where `a` is an optional string
(`None` and `""` are falsy). -/
def pyOrStr (a : Option String) (b : String) : String :=
  match a with
  | some s => if s = "" then b else s
  | none => b

/-- Python truthiness-based `a or b` on two strings (`""` is falsy). -/
def pyOrS (a b : String) : String :=
  if a = "" then b else a

/-- Python truthiness-based `a or b` on optional numbers
(`None` and `0` are falsy; the second operand is returned as-is). -/
def pyOrOptI (a b : Option Int) : Option Int :=
  match a with
  | some n => if n = 0 then b else some n
  | none => b

/-! ## `train_model.py`: status normalization -/

/-- `FAIL_STATUSES` from `train_model.py`. -/
def FAIL_STATUSES : List String := ["failed", "timedout", "timed_out", "interrupted"]

/-- `PASS_STATUSES` from `train_model.py`. -/
def PASS_STATUSES : List String := ["passed"]

/-- `SKIP_STATUSES` from `train_model.py`. -/
def SKIP_STATUSES : List String := ["skipped"]

/-- The synonym-mapping cascade at the end of `_status_str`. -/
def statusSynonyms (t : String) : String :=
  if t ∈ (["timedout", "timeout", "timedouterror"] : List String) then "timedout"
  else if t ∈ (["pass", "ok", "success"] : List String) then "passed"
  else if t ∈ (["skip", "skipping"] : List String) then "skipped"
  else if t ∈ (["fail", "error"] : List String) then "failed"
  else t

/-- `_status_str` from `train_model.py`: lower-case, strip, remove
spaces, hyphens and underscores, then map known synonym spellings. -/
def _status_str (s : String) : String :=
  if s = "" then "unknown"
  else statusSynonyms (removeChar (removeChar (removeChar (pyLower (pyStrip s)) ' ') '-') '_')

/-! ## `app.py`: status vocabulary and its normalizer -/

/-- `PASS` from `app.py`. -/
def PASS : List String := ["passed"]

/-- `SKIP` from `app.py`. -/
def SKIP : List String := ["skipped"]

/-- `FAIL` from `app.py`. -/
def FAIL : List String := ["failed", "timedout", "timed_out", "interrupted"]

/-- `KNOWN = PASS | SKIP | FAIL | {"unknown"}` from `app.py`. -/
def KNOWN : List String := PASS ++ SKIP ++ FAIL ++ ["unknown"]

/-- `_norm_status` from `app.py`: strip, lower-case, remove spaces and
map hyphens to underscores.  Note the source's final line
`return s if s in KNOWN else s` returns `s` in both branches; it is
embedded exactly as written. -/
def _norm_status (s : Option String) : String :=
  match s with
  | none => "unknown"
  | some s0 =>
    if s0 = "" then "unknown"
    else
      let t := swapChar (removeChar (pyLower (pyStrip s0)) ' ') '-' '_'
      if t ∈ KNOWN then t else t

/-- `_safe` from `app.py`: `(s or "").strip() or default`. -/
def _safe (s : Option String) (default : String) : String :=
  let t := pyStrip (s.getD "")
  if t = "" then default else t


/-! ## `train_model.py`: report data model

Raw report nodes are dictionaries of known shape; each field that the
source reads with `.get(key)` becomes an `Option`-typed (or
list-typed, defaulting to `[]`) structure field.  The source guards
attempt arrays with `isinstance(arr, list)`; the typed fields encode
exactly the list-shaped case, which is the only one the guard lets
through. -/

/-- The value the source stores under `"errors"`: either the node's
`errors` list (when truthy) or its `error` value (a string) or `[]`. -/
inductive ErrData : Type where
  | list (xs : List String)
  | str (s : String)
deriving Repr, DecidableEq

/-- One element of a raw `retries`/`attempts`/`results` array. -/
structure AttemptSrc where
  status : Option String
  outcome : Option String
  duration : Option Int
  durationMs : Option Int
  errors : List String
  error : Option String
deriving Repr, DecidableEq

/-- A raw test node as read by `_attempts_from_test`, `_guess_project`
and `_normalize_tests`. -/
structure TestNode where
  id : Option String
  title : Option String
  status : Option String
  outcome : Option String
  duration : Option Int
  durationMs : Option Int
  errors : List String
  error : Option String
  retries : Option (List AttemptSrc)
  attempts : Option (List AttemptSrc)
  results : Option (List AttemptSrc)
  projectName : Option String
  project : Option String
  projectId : Option String
deriving Repr, DecidableEq

/-- A spec node: `title`/`file` metadata plus a `tests` array. -/
structure SpecNode where
  title : Option String
  file : Option String
  tests : List TestNode
deriving Repr, DecidableEq

mutual
/-- A suite node: metadata, `specs`, direct `tests` and nested child
suites under a `suites` key. -/
inductive SuiteNode : Type where
  | mk (title name file : Option String) (specs : List SpecNode)
       (tests : List TestNode) (suites : SuiteList)

/-- The spine of a list of child suites (kept as a mutual inductive so
that the walker is compiled by structural recursion). -/
inductive SuiteList : Type where
  | nil
  | cons (s : SuiteNode) (rest : SuiteList)
end

/-- The raw report: either a `suites` layout (present even when the
list is empty, matching `isinstance(data.get("suites"), list)`) or the
fallback `results` layout. -/
structure ResultNode where
  suiteTitle : Option String
  suiteName : Option String
  file : Option String
  title : Option String
  tests : List TestNode

structure RawReport where
  suites : Option SuiteList
  results : List ResultNode

/-! ## `train_model.py`: attempt reconciliation (`_attempts_from_test`) -/

/-- An attempt dictionary as built by `_attempts_from_test`:
`{status, duration_ms, errors}`. -/
structure PyAttempt where
  status : String
  duration_ms : Option Int
  errors : ErrData
deriving Repr, DecidableEq

/-- `a.get("errors") or a.get("error") or []` from `_attempts_from_test`. -/
def pyErrs (errors : List String) (error : Option String) : ErrData :=
  if errors = [] then
    match error with
    | some e => if e = "" then ErrData.list [] else ErrData.str e
    | none => ErrData.list []
  else ErrData.list errors

/-- Conversion of one raw array element into an attempt dictionary
(the body of the inner loop of `_attempts_from_test`); the status falls
back to the enclosing test node's own `status` field. -/
def convAttempt (test : TestNode) (a : AttemptSrc) : PyAttempt :=
  { status := _status_str (pyOrStr a.status (pyOrStr a.outcome (pyOrStr test.status "")))
    duration_ms := pyOrOptI a.duration a.durationMs
    errors := pyErrs a.errors a.error }

/-- The single synthesized attempt used when no attempt array is
present (`if not attempts:` branch of `_attempts_from_test`); its
status is `status or "unknown"`. -/
def synthAttempt (test : TestNode) : PyAttempt :=
  { status := pyOrS (_status_str (pyOrStr test.status (pyOrStr test.outcome ""))) "unknown"
    duration_ms := pyOrOptI test.duration test.durationMs
    errors := pyErrs test.errors test.error }

/-- `isinstance(arr, list) and arr`: keep an attempt array only when it
is present and non-empty. -/
def nonemptyArr (o : Option (List AttemptSrc)) : Option (List AttemptSrc) :=
  match o with
  | some xs => if xs = [] then none else some xs
  | none => none

/-- The `for key in ("retries", "attempts", "results")` loop with its
`break`: the first present non-empty array wins. -/
def firstNonemptySource (t : TestNode) : Option (List AttemptSrc) :=
  match nonemptyArr t.retries with
  | some xs => some xs
  | none =>
    match nonemptyArr t.attempts with
    | some xs => some xs
    | none => nonemptyArr t.results

/-- The final "fill unknowns defensively" loop of `_attempts_from_test`. -/
def fillUnknown (a : PyAttempt) : PyAttempt :=
  if a.status = "" then { a with status := "unknown" } else a

/-- `_attempts_from_test` from `train_model.py`. -/
def _attempts_from_test (t : TestNode) : List PyAttempt :=
  let base :=
    match firstNonemptySource t with
    | some xs => xs.map (convAttempt t)
    | none => [synthAttempt t]
  base.map fillUnknown

/-! ## `train_model.py`: report walker (`_walk_playwright`) -/

mutual
/-- `_iter_suite` from `_walk_playwright`: yield
`(suite_title, spec_title, test)` for specs' tests, then direct tests
(spec title defaulting to the suite title), then nested child suites. -/
def iterSuite : SuiteNode → List (String × String × TestNode)
  | SuiteNode.mk title name file specs tests suites =>
    let suite_title := pyOrStr title (pyOrStr name (pyOrStr file ""))
    (specs.flatMap (fun sp =>
      let spec_title := pyOrStr sp.title (pyOrStr sp.file "")
      sp.tests.map (fun t => (suite_title, spec_title, t))))
    ++ tests.map (fun t => (suite_title, suite_title, t))
    ++ iterSuites suites

def iterSuites : SuiteList → List (String × String × TestNode)
  | SuiteList.nil => []
  | SuiteList.cons s rest => iterSuite s ++ iterSuites rest
end

/-- `_walk_playwright` from `train_model.py`. -/
def _walk_playwright (d : RawReport) : List (String × String × TestNode) :=
  match d.suites with
  | some suites => iterSuites suites
  | none =>
    d.results.flatMap (fun r =>
      let suite_title := pyOrStr r.suiteTitle (pyOrStr r.suiteName "")
      let spec_title := pyOrStr r.file (pyOrStr r.title "")
      r.tests.map (fun t => (suite_title, spec_title, t)))

/-! ## `train_model.py`: record builder (`_normalize_tests`) -/

/-- `_guess_project` from `train_model.py`. -/
def _guess_project (test : TestNode) : String :=
  pyOrStr test.projectName (pyOrStr test.project (pyOrStr test.projectId "default"))

/-- The rich per-test dictionary produced by `_normalize_tests`. -/
structure Record where
  suite : String
  spec : String
  title : String
  project : String
  attempts : List PyAttempt
  final_status : String
  failed_once : Bool
  is_flaky : Bool
deriving Repr, DecidableEq

/-- The composite identity key of `_normalize_tests`:
`test.get("id") or f"{suite}::{spec}::{title}::{project}"`. -/
def testKey (suite_title spec_title : String) (test : TestNode) : String :=
  pyOrStr test.id
    (suite_title ++ "::" ++ spec_title ++ "::" ++ pyOrStr test.title "" ++ "::"
      ++ _guess_project test)

/-- The record value built per walked node inside `_normalize_tests`. -/
def mkRecord (suite_title spec_title : String) (test : TestNode) : Record :=
  let title := pyOrStr test.title ""
  let project := _guess_project test
  let attempts := _attempts_from_test test
  let final_status :=
    match attempts.getLast? with
    | some a => a.status
    | none => "unknown"
  let failed_once := attempts.any (fun a => a.status ∈ FAIL_STATUSES)
  let is_flaky := failed_once && decide (final_status ∈ PASS_STATUSES)
  { suite := pyOrS suite_title "Unknown suite"
    spec := pyOrS spec_title "Unknown spec"
    title := pyOrS title "Unknown test"
    project := project
    attempts := attempts
    final_status := final_status
    failed_once := failed_once
    is_flaky := is_flaky }

/-- Insertion-ordered dictionary update: replace in place when the key
exists, append otherwise (Python `dict` assignment). -/
def upsert (m : List (String × Record)) (k : String) (v : Record) : List (String × Record) :=
  match m with
  | [] => [(k, v)]
  | (k', v') :: rest => if k' = k then (k, v) :: rest else (k', v') :: upsert rest k v

/-- `_normalize_tests` from `train_model.py`: fold the walked nodes
into a dictionary keyed by `testKey`. -/
def _normalize_tests (d : RawReport) : List (String × Record) :=
  (_walk_playwright d).foldl
    (fun out x => upsert out (testKey x.1 x.2.1 x.2.2) (mkRecord x.1 x.2.1 x.2.2)) []

/-- `iter_tests_with_attempts` from `train_model.py`: the dictionary's
values in insertion order. -/
def iter_tests_with_attempts (d : RawReport) : List Record :=
  (_normalize_tests d).map Prod.snd

/-! ## `app.py`: snapshot aggregation (`get_snapshot`)

`get_snapshot` fetches the report and iterates over the rich records
(`iter_tests_with_attempts` exists, so `use_rich` is always true); it
is embedded as a function of the record list.  Counter dictionaries
are insertion-ordered association lists. -/

/-- First-match lookup in an association list. -/
def alookup {β : Type} : List (String × β) → String → Option β
  | [], _ => none
  | (k, v) :: rest, q => if k = q then some v else alookup rest q

/-- `m.get(k, d)`. -/
def alookupD {β : Type} (m : List (String × β)) (q : String) (d : β) : β :=
  (alookup m q).getD d

/-- Insertion-ordered update for counter dictionaries. -/
def aset {β : Type} : List (String × β) → String → β → List (String × β)
  | [], k, v => [(k, v)]
  | (k', v') :: rest, k, v =>
    if k' = k then (k, v) :: rest else (k', v') :: aset rest k v

/-- `m[k] = m.get(k, 0) + 1`. -/
def bump (m : List (String × Nat)) (k : String) : List (String × Nat) :=
  aset m k (alookupD m k 0 + 1)

/-- `m.setdefault(k, v)`: new keys are appended at the end. -/
def setdef {β : Type} (m : List (String × β)) (k : String) (v : β) : List (String × β) :=
  if (alookup m k).isSome then m else m ++ [(k, v)]

/-- The initial counter dictionary
`{"passed": 0, "failed": 0, "skipped": 0, "flaky": 0, "unknown": 0}`. -/
def totalsInit : List (String × Nat) :=
  [("passed", 0), ("failed", 0), ("skipped", 0), ("flaky", 0), ("unknown", 0)]

/-- The six values returned by `get_snapshot`. -/
structure Snapshot where
  totals : List (String × Nat)
  per_suite : List (String × List (String × Nat))
  passed_tests : List String
  failed_tests : List String
  flaky_tests : List String
  failed_once_names : List String

/-- `name = _safe(t.get("title") or t.get("spec"), "Unnamed test")`. -/
def nameOf (t : Record) : String :=
  _safe (some (pyOrS t.title t.spec)) "Unnamed test"

/-- `sname = _safe(t.get("suite"), "Unknown suite")`. -/
def snameOf (t : Record) : String :=
  _safe (some t.suite) "Unknown suite"

/-- The loop's `final_status` after normalization and the
last-attempt fallback (`get_snapshot` lines computing it). -/
def finalStatusOf (t : Record) : String :=
  let fs := _norm_status (some t.final_status)
  if fs = "" then _norm_status ((t.attempts.getLast?).map PyAttempt.status) else fs

/-- `key = "flaky" if is_flaky else (final_status or "unknown")`. -/
def snapKey (t : Record) : String :=
  if t.is_flaky then "flaky" else pyOrS (finalStatusOf t) "unknown"

/-- `label = f"{name} ({sname})"`. -/
def labelOf (t : Record) : String :=
  nameOf t ++ " (" ++ snameOf t ++ ")"

/-- One iteration of the `for t in tests` loop of `get_snapshot`. -/
def snapStep (acc : Snapshot) (t : Record) : Snapshot :=
  let sname := snameOf t
  let final_status := finalStatusOf t
  let key := snapKey t
  let label := labelOf t
  let totals' := bump acc.totals key
  let ps := setdef acc.per_suite sname totalsInit
  let per_suite' := aset ps sname (bump (alookupD ps sname totalsInit) key)
  { totals := totals'
    per_suite := per_suite'
    passed_tests :=
      if final_status ∈ PASS then acc.passed_tests ++ [label] else acc.passed_tests
    failed_tests :=
      if final_status ∈ PASS then acc.failed_tests
      else if final_status ∈ FAIL then acc.failed_tests ++ [label]
      else acc.failed_tests
    flaky_tests := if t.is_flaky then acc.flaky_tests ++ [label] else acc.flaky_tests
    failed_once_names :=
      if t.failed_once then acc.failed_once_names ++ [label] else acc.failed_once_names }

/-- The accumulators at the start of `get_snapshot`'s loop. -/
def snapInit : Snapshot :=
  { totals := totalsInit, per_suite := [], passed_tests := [],
    failed_tests := [], flaky_tests := [], failed_once_names := [] }

/-- `get_snapshot` from `app.py`, as a function of the record list. -/
def get_snapshot (tests : List Record) : Snapshot :=
  tests.foldl snapStep snapInit

/-- `sum(m.values())`. -/
def sumVals (m : List (String × Nat)) : Nat :=
  (m.map Prod.snd).sum

/-- Sum of all counters across the per-suite dictionaries. -/
def osum (ps : List (String × List (String × Nat))) : Nat :=
  (ps.map (fun p => sumVals p.2)).sum

/-! ## `app.py`: query router

The router's regexes are modelled at token granularity: the message is
its list of lower-cased words (the source lower-cases and strips the
message, and `\s+` separators correspond to token boundaries).  A
regex literal followed by `\b` matches a token that starts with the
literal and continues, if at all, with a non-word character. -/

/-- Regex word character (`\w`): letters, digits, underscore. -/
def isWordChar (c : Char) : Bool := c.isAlphanum || c = '_'

/-- `lit\b` matched against one token. -/
def tokMatchB (lit w : String) : Bool :=
  lit.data.isPrefixOf w.data &&
    (match w.data.drop lit.data.length with
     | [] => true
     | c :: _ => !(isWordChar c))

/-- Contiguous-sublist test on character lists. -/
def listHasSub (n : List Char) : List Char → Bool
  | [] => n.isEmpty
  | c :: rest => n.isPrefixOf (c :: rest) || listHasSub n rest

/-- Python `needle in hay` on strings. -/
def strContains (needle hay : String) : Bool :=
  listHasSub needle.data hay.data

/-- Search a binary token predicate over consecutive token pairs. -/
def anyPair (p : String → String → Bool) : List String → Bool
  | [] => false
  | [_] => false
  | a :: b :: rest => p a b || anyPair p (b :: rest)

/-- The `\bflaky\?\b` alternative: a token starting `flaky?` whose next
character is a word character (the trailing `\b` needs one). -/
def flakyQTok (w : String) : Bool :=
  ("flaky?".data.isPrefixOf w.data) &&
    (match w.data.drop 6 with
     | c :: _ => isWordChar c
     | [] => false)

/-- Rule 1 pattern `\b(any\s+)?flaky tests?\b|\bflaky\?\b`. -/
def flakyRule (ws : List String) : Bool :=
  anyPair (fun w1 w2 => w1 = "flaky" && (tokMatchB "test" w2 || tokMatchB "tests" w2)) ws
    || ws.any flakyQTok

/-- The `(how many|count|number of)` group matched at the head of a
token suffix; returns the remaining tokens. -/
def countHead : List String → Option (List String)
  | "how" :: "many" :: rest => some rest
  | "count" :: rest => some rest
  | "number" :: "of" :: rest => some rest
  | _ => none

/-- The status alternation `(passed|failed|skipped|flaky)`. -/
def statusLits : List String := ["passed", "failed", "skipped", "flaky"]

/-- `(passed|failed|skipped|flaky)\b` against one token. -/
def matchStatusB (w : String) : Option String :=
  statusLits.find? (fun st => tokMatchB st w)

/-- `(tests?\s+)?(passed|failed|skipped|flaky)\b` after the count head. -/
def countTail : List String → Option String
  | [] => none
  | w :: rest =>
    match matchStatusB w with
    | some st => some st
    | none =>
      if w = "test" || w = "tests" then
        match rest with
        | [] => none
        | w2 :: _ => matchStatusB w2
      else none

/-- Rule 2 search: `(how many|count|number of)\s+(tests?\s+)?(passed|failed|skipped|flaky)\b`. -/
def findCount : List String → Option String
  | [] => none
  | w :: rest =>
    match countHead (w :: rest) with
    | some tail =>
      match countTail tail with
      | some st => some st
      | none => findCount rest
    | none => findCount rest

/-- Rule 3 search: `(how many|count|number of)\s+(tests?)\b`. -/
def findTotal : List String → Bool
  | [] => false
  | w :: rest =>
    (match countHead (w :: rest) with
     | some (w1 :: _) => tokMatchB "test" w1 || tokMatchB "tests" w1
     | _ => false)
    || findTotal rest

/-- `\b(failed tests|tests that failed|failures)\b` searched in a
token suffix. -/
def failedPhrase : List String → Bool
  | [] => false
  | w :: rest =>
    (w = "failed" && (match rest with | w2 :: _ => tokMatchB "tests" w2 | [] => false))
    || (w = "tests" && (match rest with | "that" :: w3 :: _ => tokMatchB "failed" w3 | _ => false))
    || tokMatchB "failures" w
    || failedPhrase rest

/-- `\b(failed at least once|failed on retry|failed during retry|failed once)\b`. -/
def failedOncePhrase : List String → Bool
  | [] => false
  | w :: rest =>
    (w = "failed" &&
      (match rest with
       | "at" :: "least" :: w4 :: _ => tokMatchB "once" w4
       | "on" :: w3 :: _ => tokMatchB "retry" w3
       | "during" :: w3 :: _ => tokMatchB "retry" w3
       | w2 :: _ => tokMatchB "once" w2
       | [] => false))
    || failedOncePhrase rest

/-- `\b(passed tests|tests that passed)\b`. -/
def passedPhrase : List String → Bool
  | [] => false
  | w :: rest =>
    (w = "passed" && (match rest with | w2 :: _ => tokMatchB "tests" w2 | [] => false))
    || (w = "tests" && (match rest with | "that" :: w3 :: _ => tokMatchB "passed" w3 | _ => false))
    || passedPhrase rest

/-- `\b(list|show|which)\b.*\b<phrase>\b`: a verb token somewhere,
followed later by the phrase. -/
def listRule (phrase : List String → Bool) : List String → Bool
  | [] => false
  | w :: rest =>
    ((tokMatchB "list" w || tokMatchB "show" w || tokMatchB "which" w) && phrase rest)
    || listRule phrase rest

/-- `(tests?\s+)?(passed|failed|skipped|flaky)\s+in\s+(.+)` after the
count head (rule at the bottom of `handle_aggregate_intents`); returns
the status word and the captured suite-query tokens. -/
def suiteTail : List String → Option (String × List String)
  | [] => none
  | w :: rest =>
    if w ∈ statusLits then
      match rest with
      | w2 :: q => if w2 = "in" ∧ q ≠ [] then some (w, q) else none
      | [] => none
    else if w = "test" || w = "tests" then
      match rest with
      | w2 :: w3 :: q => if w2 ∈ statusLits ∧ w3 = "in" ∧ q ≠ [] then some (w2, q) else none
      | _ => none
    else none

/-- Search for the suite-scoped count pattern
`(how many|count|number of)\s+(tests?\s+)?(passed|failed|skipped|flaky)\s+in\s+(.+)`. -/
def findSuiteCount : List String → Option (String × List String)
  | [] => none
  | w :: rest =>
    match countHead (w :: rest) with
    | some tail =>
      match suiteTail tail with
      | some r => some r
      | none => findSuiteCount rest
    | none => findSuiteCount rest

/-- `"\n".join(f"- {t}" for t in ts)`. -/
def fmtBullets (ts : List String) : String :=
  String.intercalate "\n" (ts.map (fun t => "- " ++ t))

/-- `handle_aggregate_intents` from `app.py`: the ordered deterministic
rule cascade, embedded in source order, over the tokenized message and
the current record list. -/
def handle_aggregate_intents (ws : List String) (tests : List Record) : Option String :=
  let snap := get_snapshot tests
  if flakyRule ws then
    if alookupD snap.totals "flaky" 0 = 0 then some "No flaky tests."
    else
      some (toString (alookupD snap.totals "flaky" 0) ++ " flaky tests:\n"
        ++ fmtBullets (snap.flaky_tests.take 50)
        ++ (if snap.flaky_tests.length ≤ 50 then ""
            else "\n… and " ++ toString (snap.flaky_tests.length - 50) ++ " more."))
  else
    match findCount ws with
    | some what => some (toString (alookupD snap.totals what 0) ++ " tests " ++ what ++ ".")
    | none =>
      if findTotal ws then
        some ("Total tests: " ++ toString (sumVals snap.totals)
          ++ " (passed " ++ toString (alookupD snap.totals "passed" 0)
          ++ ", failed " ++ toString (alookupD snap.totals "failed" 0)
          ++ ", skipped " ++ toString (alookupD snap.totals "skipped" 0)
          ++ ", flaky " ++ toString (alookupD snap.totals "flaky" 0) ++ ").")
      else if listRule failedPhrase ws then
        some (if snap.failed_tests = [] then "No failed tests (final results)."
          else "Failed tests (final):\n" ++ fmtBullets (snap.failed_tests.take 50)
            ++ (if snap.failed_tests.length ≤ 50 then ""
                else "\n… and " ++ toString (snap.failed_tests.length - 50) ++ " more."))
      else if listRule failedOncePhrase ws then
        some (if snap.failed_once_names = [] then
            "No tests failed during retries; all passing tests stayed green."
          else "Tests that failed at least once:\n"
            ++ fmtBullets (snap.failed_once_names.take 100)
            ++ (if snap.failed_once_names.length ≤ 100 then ""
                else "\n… and " ++ toString (snap.failed_once_names.length - 100) ++ " more."))
      else if listRule passedPhrase ws then
        some (if snap.passed_tests = [] then "No passed tests."
          else "Passed tests:\n" ++ fmtBullets (snap.passed_tests.take 50)
            ++ (if snap.passed_tests.length ≤ 50 then ""
                else "\n… and " ++ toString (snap.passed_tests.length - 50) ++ " more."))
      else
        match findSuiteCount ws with
        | some (what, q) =>
          let suite_query := stripChar (pyStrip (String.intercalate " " q)) '?'
          let candidates := (snap.per_suite.map Prod.fst).filter
            (fun s => strContains (pyLower suite_query) (pyLower s))
          match candidates with
          | [] => some ("I couldn\x27t find a suite matching \x27" ++ suite_query ++ "\x27.")
          | s :: _ =>
            some ("In \x27" ++ s ++ "\x27: "
              ++ toString (alookupD (alookupD snap.per_suite s []) what 0)
              ++ " tests " ++ what ++ ".")
        | none => none

/-- `GREETING_REPLY` from `app.py`. -/
def GREETING_REPLY : String :=
  "Hello! 👋 Hope you\x27re doing well. How can I help you with your Playwright tests today?"

/-- The single-word greeting alternatives `\b(hi|hello|hey)\b`,
`\bgm\b`, `\bgn\b`. -/
def greetWordTok (w : String) : Bool :=
  tokMatchB "hi" w || tokMatchB "hello" w || tokMatchB "hey" w
    || tokMatchB "gm" w || tokMatchB "gn" w

/-- Day words for the `gd` alternative. -/
def dayWordsGd : List String := ["morning", "afternoon", "evening"]

/-- Day words for the `good` alternative. -/
def dayWordsGood : List String := ["morning", "afternoon", "evening", "night"]

/-- `is_greeting` from `app.py` at token granularity; `\s*` inside
`gd/good <day>` and `how are you / how r u` admits both the spaced and
the fused single-token spellings. -/
def is_greeting : List String → Bool
  | [] => false
  | w :: rest =>
    greetWordTok w
    || (w = "gd" && (match rest with
        | w2 :: _ => dayWordsGd.any (fun t => tokMatchB t w2)
        | [] => false))
    || dayWordsGd.any (fun t => tokMatchB ("gd" ++ t) w)
    || (w = "good" && (match rest with
        | w2 :: _ => dayWordsGood.any (fun t => tokMatchB t w2)
        | [] => false))
    || dayWordsGood.any (fun t => tokMatchB ("good" ++ t) w)
    || (w = "how" && (match rest with
        | "are" :: w3 :: _ => tokMatchB "you" w3
        | "r" :: w3 :: _ => tokMatchB "u" w3
        | w2 :: _ => tokMatchB "areyou" w2 || tokMatchB "ru" w2
        | [] => false))
    || tokMatchB "howareyou" w || tokMatchB "howru" w
    || is_greeting rest

/-- The vague-query check `re.fullmatch(r"(?i)(tests?|results?)\??", text)`:
a single token that is `test(s)`/`result(s)` with an optional `?`. -/
def isVague : List String → Bool
  | [w] => w ∈ (["test", "tests", "result", "results",
                 "test?", "tests?", "result?", "results?"] : List String)
  | _ => false

/-- `_short_help` from `app.py`. -/
def _short_help (tests : List Record) : String :=
  let totals := (get_snapshot tests).totals
  String.intercalate "\n"
    [ "Here’s the current snapshot:"
    , "• Total: " ++ toString (sumVals totals)
    , "• Passed: " ++ toString (alookupD totals "passed" 0)
    , "• Failed (final): " ++ toString (alookupD totals "failed" 0)
    , "• Skipped: " ++ toString (alookupD totals "skipped" 0)
    , "• Flaky: " ++ toString (alookupD totals "flaky" 0)
    , ""
    , "Try: \x27list failed tests\x27, \x27list tests that failed at least once\x27, \x27any flaky tests?\x27, or \x27how many passed in <suite>\x27." ]

/-! ## `app.py`: statistical fallback and `respond` -/

/-- The loaded Naive-Bayes classifier state: whether `predict_proba`
exists, the probability vector for the query, `model.classes_`, and
the `predict` result used on the no-proba path. -/
structure Classifier where
  hasPredictProba : Bool
  proba : List ℚ
  classes : List Nat
  predictResult : Nat

/-- `np.argmax`: index of the first maximal entry. -/
def argmaxIdx : List ℚ → Nat
  | [] => 0
  | x :: xs =>
    match xs with
    | [] => 0
    | _ :: _ =>
      if xs.getD (argmaxIdx xs) 0 ≤ x then 0 else argmaxIdx xs + 1

/-- The hard-coded confidence threshold `0.45`. -/
def CONF_THRESHOLD : ℚ := 45 / 100

/-- The Naive-Bayes fallback stage of `respond` (`app.py` step 3):
canned answer keyed by the predicted class, replaced by the help text
when the top-class confidence is below the threshold. -/
def nbFallback (clf : Classifier) (answers : List String) (helpText : String) : String :=
  if clf.hasPredictProba then
    let idx := argmaxIdx clf.proba
    let conf := clf.proba.getD idx 0
    let pred := clf.classes.getD idx 0
    let reply := answers.getD pred ""
    if conf < CONF_THRESHOLD then helpText else reply
  else answers.getD clf.predictResult ""

/-- `respond` from `app.py` (the reply text; the chat-history append
and textbox reset are UI plumbing).  Greeting check, vague check,
deterministic aggregate intents, then the classifier fallback. -/
def respond (ws : List String) (tests : List Record) (clf : Classifier)
    (answers : List String) : String :=
  if is_greeting ws then GREETING_REPLY
  else if isVague ws then _short_help tests
  else
    match handle_aggregate_intents ws tests with
    | some agg => agg
    | none => nbFallback clf answers (_short_help tests)

/-! ## Timestamp Resolver (spec §4.1)

No timestamp-resolution code exists in the two source files; the spec
describes the component, so it is modelled here from the spec's words. -/

/-- Modelled from the spec: the heterogeneous time encodings accepted
by the Timestamp Resolver — a numeric epoch value or a string (either
a numeric-string epoch or an ISO-8601 timestamp). -/
inductive TimeVal : Type where
  | num (n : Int)
  | str (s : String)

/-- Modelled from the spec: days from 1970-01-01 to a civil date
(standard civil-from-days inverse, Hinnant's algorithm). -/
def daysFromCivil (y m d : Int) : Int :=
  let y2 := if m ≤ 2 then y - 1 else y
  let era := (if 0 ≤ y2 then y2 else y2 - 399) / 400
  let yoe := y2 - era * 400
  let doy := (153 * (if 2 < m then m - 3 else m + 9) + 2) / 5 + d - 1
  let doe := yoe * 365 + yoe / 4 - yoe / 100 + doy
  era * 146097 + doe - 719468

/-- Modelled from the spec: the absolute time (epoch milliseconds) of
a validated ISO date-time read from digit characters, interpreted as
UTC. -/
def isoCore (y1 y2 y3 y4 mo1 mo2 d1 d2 h1 h2 mi1 mi2 s1 s2 : Char) : Option Int :=
  if y1.isDigit && y2.isDigit && y3.isDigit && y4.isDigit && mo1.isDigit && mo2.isDigit
      && d1.isDigit && d2.isDigit && h1.isDigit && h2.isDigit && mi1.isDigit && mi2.isDigit
      && s1.isDigit && s2.isDigit then
    let dv : Char → Int := fun c => (c.toNat : Int) - 48
    let y := 1000 * dv y1 + 100 * dv y2 + 10 * dv y3 + dv y4
    let mo := 10 * dv mo1 + dv mo2
    let d := 10 * dv d1 + dv d2
    let h := 10 * dv h1 + dv h2
    let mi := 10 * dv mi1 + dv mi2
    let s := 10 * dv s1 + dv s2
    if 1 ≤ mo ∧ mo ≤ 12 ∧ 1 ≤ d ∧ d ≤ 31 ∧ h ≤ 23 ∧ mi ≤ 59 ∧ s ≤ 59 then
      some ((daysFromCivil y mo d * 86400 + h * 3600 + mi * 60 + s) * 1000)
    else none
  else none

/-- Modelled from the spec: ISO-8601 `YYYY-MM-DDTHH:MM:SS` with an
optional trailing `Z` (treated as UTC offset `+00:00`; with no offset,
UTC is assumed); anything else is unparseable. -/
def parseIsoChars : List Char → Option Int
  | [y1, y2, y3, y4, '-', m1, m2, '-', d1, d2, 'T', h1, h2, ':', n1, n2, ':', s1, s2] =>
    isoCore y1 y2 y3 y4 m1 m2 d1 d2 h1 h2 n1 n2 s1 s2
  | [y1, y2, y3, y4, '-', m1, m2, '-', d1, d2, 'T', h1, h2, ':', n1, n2, ':', s1, s2, 'Z'] =>
    isoCore y1 y2 y3 y4 m1 m2 d1 d2 h1 h2 n1 n2 s1 s2
  | _ => none

/-- Modelled from the spec: a non-empty all-digit character list read
as a decimal number. -/
def parseDigits (cs : List Char) : Option Nat :=
  if cs = [] then none
  else if cs.all Char.isDigit then
    some (cs.foldl (fun acc c => acc * 10 + (c.toNat - 48)) 0)
  else none

/-- Modelled from the spec: a numeric-string epoch value (optionally
negative). -/
def parseEpochStr (s : String) : Option Int :=
  match s.data with
  | '-' :: rest => (parseDigits rest).map (fun n => -(n : Int))
  | cs => (parseDigits cs).map (fun n => (n : Int))

/-- Modelled from the spec: epoch disambiguation — milliseconds when
the magnitude exceeds `1e12`, else seconds (converted to
milliseconds). -/
def epochToMs (n : Int) : Int :=
  if 1000000000000 < n.natAbs then n else n * 1000

/-- Modelled from the spec: `resolve(value) -> AbsoluteTime | none`,
the canonical absolute time in epoch milliseconds, with `none` (not an
error) on unparseable input. -/
def resolve : TimeVal → Option Int
  | TimeVal.num n => some (epochToMs n)
  | TimeVal.str s =>
    match parseEpochStr s with
    | some n => some (epochToMs n)
    | none => parseIsoChars s.data

/-! ## Measure helpers used in theorem statements -/

/-- The key column of the record dictionary. -/
def keysOf (m : List (String × Record)) : List String := m.map Prod.fst

/-- Append a key unless it is already present: the effect of one
`upsert` on the key column. -/
def insKey (ks : List String) (k : String) : List String :=
  if k ∈ ks then ks else ks ++ [k]

/-- The identity keys of the walked leaf test nodes, in walk order. -/
def walkKeys (d : RawReport) : List String :=
  (_walk_playwright d).map (fun x => testKey x.1 x.2.1 x.2.2)

/-- `per_suite[s].get(q, 0)` with both lookups defaulted. -/
def suiteCount (ps : List (String × List (String × Nat))) (s q : String) : Nat :=
  alookupD (alookupD ps s []) q 0

/-! ## Concrete inputs used by the claim theorems -/

/-- A record shaped like the output of `_normalize_tests` with a
single attempt. -/
def simpleRec (suite title fs : String) (fo flaky : Bool) : Record :=
  { suite := suite, spec := "Spec", title := title, project := "default",
    attempts := [{ status := fs, duration_ms := none, errors := ErrData.list [] }],
    final_status := fs, failed_once := fo, is_flaky := flaky }

/-- C1 failing input: suite `Login` has 2 final failures and 1 pass,
suite `Checkout` has 1 final failure, so the global failure count (3)
differs from `Login`'s (2). -/
def c1records : List Record :=
  [ simpleRec "Login" "bad password shows error" "failed" true false
  , simpleRec "Login" "account locks after retries" "failed" true false
  , simpleRec "Login" "valid login works" "passed" false false
  , simpleRec "Checkout" "pay with card" "failed" true false ]

/-- A raw test node used in duplicate-key reports. -/
def c3dupTest : TestNode :=
  { id := none, title := some "same title", status := some "passed", outcome := none,
    duration := none, durationMs := none, errors := [], error := none,
    retries := none, attempts := none, results := none,
    projectName := none, project := none, projectId := none }

/-- C3 counterexample report: one suite whose spec holds two leaf test
nodes with identical identity keys. -/
def c3dupReport : RawReport :=
  { suites := some (SuiteList.cons
      (SuiteNode.mk (some "S") none none
        [{ title := some "sp", file := none, tests := [c3dupTest, c3dupTest] }]
        [] SuiteList.nil)
      SuiteList.nil)
  , results := [] }

/-- A second raw test node with a distinct title. -/
def c3otherTest : TestNode :=
  { c3dupTest with title := some "other title" }

/-- C3 witness report: two leaf test nodes with distinct identity keys. -/
def c3okReport : RawReport :=
  { suites := some (SuiteList.cons
      (SuiteNode.mk (some "S") none none
        [{ title := some "sp", file := none, tests := [c3dupTest, c3otherTest] }]
        [] SuiteList.nil)
      SuiteList.nil)
  , results := [] }

/-- C5 counterexample record: not flaky, final status `timedout`,
which lies outside {passed, failed, skipped}. -/
def c5rec : Record := simpleRec "Suite A" "slow test" "timedout" true false

/-- C6 witness node: `retries` and `attempts` are both present and
non-empty; the reconciler must use `retries` alone. -/
def c6retryA : AttemptSrc :=
  { status := some "failed", outcome := none, duration := some 5, durationMs := none,
    errors := ["boom"], error := none }

def c6attemptA : AttemptSrc :=
  { status := some "passed", outcome := none, duration := none, durationMs := none,
    errors := [], error := none }

def c6node : TestNode :=
  { id := none, title := some "t", status := some "passed", outcome := none,
    duration := none, durationMs := none, errors := [], error := none,
    retries := some [c6retryA], attempts := some [c6attemptA], results := none,
    projectName := none, project := none, projectId := none }

/-- C8 witness classifier: `predict_proba` available, top-class
confidence `0.3`, below the `0.45` threshold. -/
def c8clf : Classifier :=
  { hasPredictProba := true, proba := [3/10], classes := [0], predictResult := 0 }

/-- C10 witness record: flaky (failed once, final status passed). -/
def c10rec : Record := simpleRec "Login" "shows error on bad password" "passed" true true

/-! ## Helper lemmas about statuses -/

/-- `statusSynonyms` maps an underscore-free string to an
underscore-free string, so it never yields `"timed_out"`. -/
theorem statusSynonyms_ne_timed_us (u : String) (hu : Char.ofNat 95 ∉ u.data) :
    statusSynonyms u ≠ "timed_out" := by
  unfold statusSynonyms
  split
  · decide
  · split
    · decide
    · split
      · decide
      · split
        · decide
        · intro h
          apply hu
          rw [h]
          decide

/-- `_status_str` removes underscores (or returns a fixed
underscore-free constant), so it can never produce `"timed_out"`. -/
theorem _status_str_ne_timed_us (s : String) : _status_str s ≠ "timed_out" := by
  unfold _status_str
  split
  · decide
  · apply statusSynonyms_ne_timed_us
    simp only [removeChar, List.mem_filter, decide_eq_true_eq, not_and]
    intro _ h
    exact h (by decide)

/-- `pyOrS a "unknown"` is `a` or `"unknown"`, never `"timed_out"`
when `a` is not. -/
theorem pyOrS_unknown_ne_timed_us (a : String) (ha : a ≠ "timed_out") :
    pyOrS a "unknown" ≠ "timed_out" := by
  unfold pyOrS
  split
  · decide
  · exact ha

/-- Every attempt produced by `_attempts_from_test` carries a status
that came through `_status_str` (with empty statuses rewritten to
`"unknown"`), hence is never the spelling `"timed_out"`. -/
theorem attempts_status_ne_timed_us (t : TestNode) (a : PyAttempt)
    (ha : a ∈ _attempts_from_test t) : a.status ≠ "timed_out" := by
  unfold _attempts_from_test at ha
  simp only [List.mem_map] at ha
  obtain ⟨b, hb, rfl⟩ := ha
  have hbase : b.status ≠ "timed_out" := by
    rcases hsrc : firstNonemptySource t with _ | xs
    · rw [hsrc] at hb
      simp only [List.mem_singleton] at hb
      subst hb
      exact pyOrS_unknown_ne_timed_us _ (_status_str_ne_timed_us _)
    · rw [hsrc] at hb
      simp only [List.mem_map] at hb
      obtain ⟨x, _, rfl⟩ := hb
      exact _status_str_ne_timed_us _
  unfold fillUnknown
  split
  · intro h
    exact (show ("unknown" : String) ≠ "timed_out" by decide) h
  · exact hbase

/-- Claim C2: for every raw test node, the record built by the
normalizer has `final_status` equal to the status of the last
reconciled attempt, `failed_once` true iff some attempt's status is in
{failed, timedout, interrupted}, and `is_flaky` true iff `failed_once`
holds and `final_status` is `passed`. -/
theorem claim2_record_flags (st sp : String) (t : TestNode) :
    (mkRecord st sp t).final_status =
      (match (_attempts_from_test t).getLast? with
       | some a => a.status
       | none => "unknown")
    ∧ ((mkRecord st sp t).failed_once = true ↔
        ∃ a ∈ _attempts_from_test t,
          a.status = "failed" ∨ a.status = "timedout" ∨ a.status = "interrupted")
    ∧ ((mkRecord st sp t).is_flaky = true ↔
        (mkRecord st sp t).failed_once = true ∧ (mkRecord st sp t).final_status = "passed") := by
  refine ⟨rfl, ?_, ?_⟩
  · show (_attempts_from_test t).any (fun a => a.status ∈ FAIL_STATUSES) = true ↔ _
    simp only [List.any_eq_true, decide_eq_true_eq]
    constructor
    · rintro ⟨a, ha, hmem⟩
      refine ⟨a, ha, ?_⟩
      have hne := attempts_status_ne_timed_us t a ha
      simp only [FAIL_STATUSES, List.mem_cons, List.mem_singleton,
        List.not_mem_nil, or_false] at hmem
      rcases hmem with h | h | h | h
      · exact Or.inl h
      · exact Or.inr (Or.inl h)
      · exact absurd h hne
      · exact Or.inr (Or.inr h)
    · rintro ⟨a, ha, hmem⟩
      refine ⟨a, ha, ?_⟩
      simp only [FAIL_STATUSES, List.mem_cons, List.mem_singleton,
        List.not_mem_nil, or_false]
      tauto
  · show ((mkRecord st sp t).failed_once
        && decide ((mkRecord st sp t).final_status ∈ PASS_STATUSES)) = true ↔ _
    simp [PASS_STATUSES]

/-- `firstNonemptySource` only ever returns a non-empty array. -/
theorem firstNonemptySource_ne_nil (t : TestNode) (xs : List AttemptSrc)
    (h : firstNonemptySource t = some xs) : xs ≠ [] := by
  have hne : ∀ o ys, nonemptyArr o = some ys → ys ≠ [] := by
    intro o ys ho
    cases o with
    | none => simp [nonemptyArr] at ho
    | some zs =>
      simp only [nonemptyArr] at ho
      split at ho
      · exact absurd ho (by simp)
      · cases ho; assumption
  unfold firstNonemptySource at h
  rcases h1 : nonemptyArr t.retries with _ | ys
  · rw [h1] at h
    rcases h2 : nonemptyArr t.attempts with _ | ys
    · rw [h2] at h
      exact hne _ _ h
    · rw [h2] at h
      cases h
      exact hne _ _ h2
  · rw [h1] at h
    cases h
    exact hne _ _ h1

/-- `pyOrS a "unknown"` is never the empty string. -/
theorem pyOrS_unknown_ne_empty (a : String) : pyOrS a "unknown" ≠ "" := by
  unfold pyOrS
  split
  · decide
  · assumption

/-- The synthesized attempt's status is never empty, so the final
"fill unknowns" pass leaves it unchanged. -/
theorem fillUnknown_synth (t : TestNode) :
    fillUnknown (synthAttempt t) = synthAttempt t := by
  unfold fillUnknown
  split
  · next hcond => exact absurd hcond (pyOrS_unknown_ne_empty _)
  · rfl

/-- Claim C6: attempt reconciliation uses exactly the first non-empty
array among `retries`, `attempts`, `results` (never merging two
sources); with no such array it returns exactly one synthesized
attempt whose status comes from the node's own status/outcome fields,
`"unknown"` when those are absent; the result is always non-empty. -/
theorem claim6_attempt_sources (t : TestNode) :
    _attempts_from_test t ≠ []
    ∧ (∀ xs, t.retries = some xs → xs ≠ [] →
        _attempts_from_test t = (xs.map (convAttempt t)).map fillUnknown)
    ∧ (∀ xs, nonemptyArr t.retries = none → t.attempts = some xs → xs ≠ [] →
        _attempts_from_test t = (xs.map (convAttempt t)).map fillUnknown)
    ∧ (∀ xs, nonemptyArr t.retries = none → nonemptyArr t.attempts = none →
        t.results = some xs → xs ≠ [] →
        _attempts_from_test t = (xs.map (convAttempt t)).map fillUnknown)
    ∧ (nonemptyArr t.retries = none → nonemptyArr t.attempts = none →
        nonemptyArr t.results = none →
        _attempts_from_test t = [synthAttempt t]
        ∧ (t.status = none → t.outcome = none → (synthAttempt t).status = "unknown")) := by
  refine ⟨?_, ?_, ?_, ?_, ?_⟩
  · unfold _attempts_from_test
    rcases hsrc : firstNonemptySource t with _ | xs
    · simp
    · have := firstNonemptySource_ne_nil t xs hsrc
      simp [this]
  · intro xs hr hne
    unfold _attempts_from_test firstNonemptySource
    rw [hr]
    simp [nonemptyArr, hne]
  · intro xs h1 ha hne
    unfold _attempts_from_test firstNonemptySource
    rw [h1, ha]
    simp [nonemptyArr, hne]
  · intro xs h1 h2 hr hne
    unfold _attempts_from_test firstNonemptySource
    rw [h1, h2, hr]
    simp [nonemptyArr, hne]
  · intro h1 h2 h3
    constructor
    · unfold _attempts_from_test firstNonemptySource
      rw [h1, h2, h3]
      simp [fillUnknown_synth]
    · intro hs ho
      simp [synthAttempt, hs, ho, pyOrStr, _status_str, pyOrS]

theorem claim6_attempt_sources_witness :
    _attempts_from_test c6node = ([c6retryA].map (convAttempt c6node)).map fillUnknown :=
  (claim6_attempt_sources c6node).2.1 [c6retryA] rfl (by decide)

/-- Claim C7 counterexample: the claim requires every normalizer used
by the program to send `"timed-out"` to `"timedout"` and to map the
synonym table, but `app.py`'s `_norm_status` maps `"timed-out"` to
`"timed_out"` and leaves `"ok"` unmapped. -/
theorem claim7_counterexample :
    _norm_status (some "timed-out") = "timed_out"
    ∧ _norm_status (some "timed-out") ≠ "timedout"
    ∧ _norm_status (some "ok") = "ok"
    ∧ _norm_status (some "ok") ≠ "passed" := by
  refine ⟨by decide, by decide, by decide, by decide⟩

/-- Claim C7 (amended): `train_model.py`'s `_status_str` satisfies the
claimed normalization (three-way `timedout` equation, synonym table,
empty input to `"unknown"`, pass-through of unrecognized strings),
while `app.py`'s `_norm_status` lower-cases and strips spaces but maps
hyphens to underscores and applies no synonym table, sending
`"TimedOut"` to `"timedout"` and both `"timed-out"` and `"timed_out"`
to `"timed_out"`. -/
theorem claim7_amended :
    _status_str "TimedOut" = "timedout"
    ∧ _status_str "timed-out" = "timedout"
    ∧ _status_str "timed_out" = "timedout"
    ∧ _status_str "ok" = "passed"
    ∧ _status_str "success" = "passed"
    ∧ _status_str "timeout" = "timedout"
    ∧ _status_str "timedouterror" = "timedout"
    ∧ _status_str "skip" = "skipped"
    ∧ _status_str "skipping" = "skipped"
    ∧ _status_str "fail" = "failed"
    ∧ _status_str "error" = "failed"
    ∧ _status_str "" = "unknown"
    ∧ _status_str "brandnewstatus" = "brandnewstatus"
    ∧ _norm_status (some "TimedOut") = "timedout"
    ∧ _norm_status (some "timed-out") = "timed_out"
    ∧ _norm_status (some "timed_out") = "timed_out"
    ∧ _norm_status (some "ok") = "ok"
    ∧ _norm_status none = "unknown" := by
  decide

/-- Claim C9: the spec-modelled Timestamp Resolver identifies the ISO
instant `2024-01-01T00:00:00Z`, the seconds epoch `1704067200` and the
milliseconds epoch `1704067200000` (magnitude above `1e12`), treats a
trailing `Z` as UTC, accepts numeric-string epochs, and yields `none`
on unparseable input. -/
theorem claim9_resolve :
    resolve (TimeVal.str "2024-01-01T00:00:00Z") = some 1704067200000
    ∧ resolve (TimeVal.num 1704067200) = some 1704067200000
    ∧ resolve (TimeVal.num 1704067200000) = some 1704067200000
    ∧ resolve (TimeVal.str "2024-01-01T00:00:00") = some 1704067200000
    ∧ resolve (TimeVal.str "1704067200") = some 1704067200000
    ∧ resolve (TimeVal.str "not-a-time") = none
    ∧ (∀ n : Int, resolve (TimeVal.num n) =
        some (if 1000000000000 < n.natAbs then n else n * 1000)) := by
  refine ⟨by decide, by decide, by decide, by decide, by decide, by decide, fun n => rfl⟩


/-! ## Claim C1: the suite-scoped count rule is shadowed -/

/-- A status literal matched against itself succeeds. -/
theorem matchStatusB_self (w : String) (hw : w ∈ statusLits) : matchStatusB w = some w := by
  simp only [statusLits, List.mem_cons, List.not_mem_nil, or_false] at hw
  rcases hw with rfl | rfl | rfl | rfl <;> decide

/-- Whenever the suite-scoped tail pattern matches a token suffix, the
generic count tail pattern matches the same suffix. -/
theorem countTail_of_suiteTail (l : List String) (st : String) (q : List String)
    (h : suiteTail l = some (st, q)) : (countTail l).isSome = true := by
  cases l with
  | nil => simp [suiteTail] at h
  | cons w rest =>
    simp only [suiteTail] at h
    simp only [countTail]
    by_cases hw : w ∈ statusLits
    · simp [matchStatusB_self w hw]
    · rw [if_neg hw] at h
      by_cases ht : (w = "test" || w = "tests") = true
      · have hw2 : w = "test" ∨ w = "tests" := by simpa using ht
        have hmw : matchStatusB w = none := by rcases hw2 with rfl | rfl <;> decide
        rw [if_pos ht] at h
        rcases rest with _ | ⟨w2, rest2⟩
        · simp at h
        · rcases rest2 with _ | ⟨w3, q2⟩
          · simp at h
          · have h2 : (if w2 ∈ statusLits ∧ w3 = "in" ∧ q2 ≠ [] then some (w2, q2) else none)
                = some (st, q) := h
            by_cases hcond : w2 ∈ statusLits ∧ w3 = "in" ∧ q2 ≠ []
            · simp [hmw, ht, matchStatusB_self w2 hcond.1]
            · rw [if_neg hcond] at h2
              exact absurd h2 (by simp)
      · rw [if_neg ht] at h
        exact absurd h (by simp)

/-- Any message matching the suite-scoped count pattern also matches
the generic status-count pattern, which is checked first. -/
theorem findCount_of_findSuiteCount (ws : List String) :
    ∀ st q, findSuiteCount ws = some (st, q) → (findCount ws).isSome = true := by
  induction ws with
  | nil => intro st q h; simp [findSuiteCount] at h
  | cons w rest ih =>
    intro st q h
    simp only [findSuiteCount] at h
    simp only [findCount]
    rcases hh : countHead (w :: rest) with _ | tail
    · simp only [hh] at h ⊢
      exact ih st q h
    · simp only [hh] at h ⊢
      rcases hs : suiteTail tail with _ | p
      · simp only [hs] at h
        rcases hc : countTail tail with _ | st2
        · simp only [hc]
          exact ih st q h
        · simp only [hc]
          rfl
      · rcases p with ⟨st3, q3⟩
        have hct := countTail_of_suiteTail tail st3 q3 hs
        rcases hc : countTail tail with _ | st2
        · rw [hc] at hct
          simp at hct
        · simp only [hc]
          rfl

/-- Claim C1 (code-bug evidence): on the query "how many failed in
login" against a snapshot where suite Login has 2 final failures and 1
pass while another suite has 1 more failure, the router answers the
generic unscoped count "3 tests failed." — not the suite-scoped
message "In 'Login': 2 tests failed." — even though a known suite
title contains the named suite as a case-insensitive substring.  In
general every message matching the suite-scoped pattern already
matches the generic count pattern checked earlier, so the suite-scoped
rule can never fire. -/
theorem claim1_suite_rule_shadowed :
    handle_aggregate_intents ["how", "many", "failed", "in", "login"] c1records
      = some "3 tests failed."
    ∧ strContains (pyLower "login") (pyLower "Login") = true
    ∧ handle_aggregate_intents ["how", "many", "failed", "in", "login"] c1records
      ≠ some "In \x27Login\x27: 2 tests failed."
    ∧ suiteCount (get_snapshot c1records).per_suite "Login" "failed" = 2
    ∧ (∀ ws st q, findSuiteCount ws = some (st, q) → (findCount ws).isSome = true) :=
  ⟨by decide, by decide, by decide, by decide, findCount_of_findSuiteCount⟩

/-- Witness for C1's universal component at the failing input. -/
theorem claim1_suite_rule_shadowed_witness :
    (findCount ["how", "many", "failed", "in", "login"]).isSome = true :=
  claim1_suite_rule_shadowed.2.2.2.2 ["how", "many", "failed", "in", "login"]
    "failed" ["login"] (by decide)

/-! ## Claim C3: record building vs. walked leaf nodes -/

/-- Claim C3 counterexample: a report whose walker reaches two leaf
test nodes with equal identity keys yields only one record, so the
build is not 1:1 as claimed. -/
theorem claim3_counterexample :
    (_walk_playwright c3dupReport).length = 2
    ∧ (_normalize_tests c3dupReport).length = 1 := by decide

/-- One `upsert` changes the key column by one `insKey`. -/
theorem keysOf_upsert (m : List (String × Record)) (k : String) (v : Record) :
    keysOf (upsert m k v) = insKey (keysOf m) k := by
  induction m with
  | nil => simp [upsert, keysOf, insKey]
  | cons hd tl ih =>
    rcases hd with ⟨k1, v1⟩
    by_cases hk : k1 = k
    · subst hk
      simp [upsert, keysOf, insKey]
    · simp only [upsert, if_neg hk, keysOf, List.map_cons]
      have ih2 : (upsert tl k v).map Prod.fst = insKey (tl.map Prod.fst) k := ih
      rw [ih2]
      unfold insKey
      by_cases hmem : k ∈ tl.map Prod.fst
      · rw [if_pos hmem, if_pos (List.mem_cons_of_mem _ hmem)]
      · have hnc : k ∉ k1 :: tl.map Prod.fst := by
          simp only [List.mem_cons, not_or]
          exact ⟨fun h => hk h.symm, hmem⟩
        rw [if_neg hmem, if_neg hnc]
        simp

/-- The key column of the record-building fold is the `insKey` fold of
the walked identity keys. -/
theorem keysOf_fold_upsert (l : List (String × String × TestNode)) (acc : List (String × Record)) :
    keysOf (l.foldl (fun out x => upsert out (testKey x.1 x.2.1 x.2.2) (mkRecord x.1 x.2.1 x.2.2)) acc)
      = (l.map (fun x => testKey x.1 x.2.1 x.2.2)).foldl insKey (keysOf acc) := by
  induction l generalizing acc with
  | nil => rfl
  | cons x xs ih =>
    simp only [List.foldl_cons, List.map_cons]
    rw [ih, keysOf_upsert]

/-- `insKey` preserves key distinctness. -/
theorem insKey_nodup (ks : List String) (k : String) (h : ks.Nodup) : (insKey ks k).Nodup := by
  unfold insKey
  split
  · exact h
  · next hmem => simp [List.nodup_append, h, hmem]

/-- Folding `insKey` preserves key distinctness. -/
theorem foldl_insKey_nodup (l : List String) (ks : List String) (h : ks.Nodup) :
    (l.foldl insKey ks).Nodup := by
  induction l generalizing ks with
  | nil => exact h
  | cons x xs ih => exact ih _ (insKey_nodup ks x h)

/-- When the inserted keys are distinct from each other and from the
accumulator, folding `insKey` grows the length by the number of keys. -/
theorem foldl_insKey_length (l : List String) (ks : List String) (h : (ks ++ l).Nodup) :
    (l.foldl insKey ks).length = ks.length + l.length := by
  induction l generalizing ks with
  | nil => simp
  | cons x xs ih =>
    have hx : x ∉ ks := by
      rw [List.nodup_append] at h
      exact fun hmem => h.2.2 hmem (List.mem_cons_self x xs)
    have h2 : ((ks ++ [x]) ++ xs).Nodup := by
      rw [List.append_assoc]
      simpa using h
    simp only [List.foldl_cons]
    have hins : insKey ks x = ks ++ [x] := by
      unfold insKey
      rw [if_neg hx]
    rw [hins, ih _ h2]
    simp only [List.length_append, List.length_cons, List.length_nil]
    omega

/-- Claim C3 (amended): the record builder never produces two records
with the same identity key, and when the walked leaf nodes' identity
keys are pairwise distinct it produces exactly one record per leaf
node; building is a pure function, so repeated builds agree. -/
theorem claim3_amended (d : RawReport) :
    (keysOf (_normalize_tests d)).Nodup
    ∧ ((walkKeys d).Nodup → (_normalize_tests d).length = (_walk_playwright d).length) := by
  constructor
  · unfold _normalize_tests
    rw [keysOf_fold_upsert (_walk_playwright d) []]
    exact foldl_insKey_nodup _ _ (by simp [keysOf])
  · intro h
    have hlen : (_normalize_tests d).length = (keysOf (_normalize_tests d)).length := by
      simp [keysOf]
    rw [hlen]
    unfold _normalize_tests
    rw [keysOf_fold_upsert (_walk_playwright d) []]
    have hl := foldl_insKey_length (walkKeys d) [] (by simpa [walkKeys] using h)
    simp only [keysOf, List.map_nil] at hl ⊢
    rw [show (_walk_playwright d).map (fun x => testKey x.1 x.2.1 x.2.2) = walkKeys d from rfl]
    rw [hl]
    simp [walkKeys]

/-- Witness for C3 (amended) at a report with two distinct leaf keys. -/
theorem claim3_amended_witness :
    (keysOf (_normalize_tests c3okReport)).Nodup
    ∧ (_normalize_tests c3okReport).length = (_walk_playwright c3okReport).length :=
  ⟨(claim3_amended c3okReport).1, (claim3_amended c3okReport).2 (by decide)⟩

/-! ## Claims C4 and C5: the snapshot's counters -/

/-- Incrementing one bucket adds exactly one to the counter sum. -/
theorem sumVals_bump (m : List (String × Nat)) (k : String) :
    sumVals (bump m k) = sumVals m + 1 := by
  induction m with
  | nil => simp [bump, aset, alookupD, alookup, sumVals]
  | cons hd tl ih =>
    rcases hd with ⟨k1, v⟩
    by_cases hk : k1 = k
    · subst hk
      simp only [bump, alookupD, alookup, if_pos rfl, Option.getD_some, aset]
      simp [sumVals]
      omega
    · have hstep : bump ((k1, v) :: tl) k = (k1, v) :: bump tl k := by
        simp [bump, aset, alookupD, alookup, hk]
      rw [hstep]
      simp only [sumVals, List.map_cons, List.sum_cons] at ih ⊢
      omega

/-- The totals column of one snapshot step. -/
theorem snapStep_totals (acc : Snapshot) (t : Record) :
    (snapStep acc t).totals = bump acc.totals (snapKey t) := rfl

/-- The per-suite column of one snapshot step. -/
theorem snapStep_per_suite (acc : Snapshot) (t : Record) :
    (snapStep acc t).per_suite
      = aset (setdef acc.per_suite (snameOf t) totalsInit) (snameOf t)
          (bump (alookupD (setdef acc.per_suite (snameOf t) totalsInit) (snameOf t) totalsInit)
            (snapKey t)) := rfl

/-- The initial counter dictionary sums to zero. -/
theorem sumVals_totalsInit : sumVals totalsInit = 0 := by decide

/-- `setdefault` with the zero dictionary does not change the total. -/
theorem osum_setdef (ps : List (String × List (String × Nat))) (k : String) :
    osum (setdef ps k totalsInit) = osum ps := by
  unfold setdef
  split
  · rfl
  · simp [osum, sumVals_totalsInit]

/-- Lookup skips a prefix in which the key does not occur. -/
theorem alookup_append_right_of_none {β : Type} (m1 m2 : List (String × β)) (q : String)
    (h : alookup m1 q = none) : alookup (m1 ++ m2) q = alookup m2 q := by
  induction m1 with
  | nil => rfl
  | cons hd tl ih =>
    rcases hd with ⟨k1, v1⟩
    simp only [List.cons_append, alookup] at h ⊢
    by_cases hk : k1 = q
    · rw [if_pos hk] at h
      exact absurd h (by simp)
    · rw [if_neg hk] at h ⊢
      exact ih h

/-- After `setdefault`, the key is present and holds its old value or
the default. -/
theorem alookup_setdef_self {β : Type} (ps : List (String × β)) (k : String) (v : β) :
    alookup (setdef ps k v) k = some ((alookup ps k).getD v) := by
  unfold setdef
  rcases h : alookup ps k with _ | x
  · simp only [h, Option.isSome_none, Bool.false_eq_true, if_false, Option.getD_none]
    rw [alookup_append_right_of_none ps _ k h]
    simp [alookup]
  · simp [h]

/-- Replacing a present entry trades its old summand for the new one. -/
theorem osum_aset_of_some (ps : List (String × List (String × Nat))) (k : String)
    (x v : List (String × Nat)) (h : alookup ps k = some x) :
    osum (aset ps k v) + sumVals x = osum ps + sumVals v := by
  induction ps with
  | nil => simp [alookup] at h
  | cons hd tl ih =>
    rcases hd with ⟨k1, y⟩
    simp only [alookup] at h
    by_cases hk : k1 = k
    · rw [if_pos hk] at h
      injection h with h
      subst h
      simp only [aset, if_pos hk, osum, List.map_cons, List.sum_cons]
      omega
    · rw [if_neg hk] at h
      simp only [aset, if_neg hk, osum, List.map_cons, List.sum_cons]
      have h2 := ih h
      simp only [osum] at h2
      omega

/-- One snapshot step adds exactly one to the per-suite grand total. -/
theorem snapStep_osum (acc : Snapshot) (t : Record) :
    osum (snapStep acc t).per_suite = osum acc.per_suite + 1 := by
  rw [snapStep_per_suite]
  have hlook : alookup (setdef acc.per_suite (snameOf t) totalsInit) (snameOf t)
      = some ((alookup acc.per_suite (snameOf t)).getD totalsInit) :=
    alookup_setdef_self acc.per_suite (snameOf t) totalsInit
  have hXd : alookupD (setdef acc.per_suite (snameOf t) totalsInit) (snameOf t) totalsInit
      = (alookup acc.per_suite (snameOf t)).getD totalsInit := by
    unfold alookupD
    rw [hlook]
    rfl
  rw [hXd]
  have h1 := osum_aset_of_some (setdef acc.per_suite (snameOf t) totalsInit) (snameOf t)
    ((alookup acc.per_suite (snameOf t)).getD totalsInit)
    (bump ((alookup acc.per_suite (snameOf t)).getD totalsInit) (snapKey t)) hlook
  have h2 := sumVals_bump ((alookup acc.per_suite (snameOf t)).getD totalsInit) (snapKey t)
  have h3 := osum_setdef acc.per_suite (snameOf t)
  omega

/-- Claim C4: every aggregated record increments exactly one totals
bucket and exactly one bucket of its suite's mapping, so the totals
sum — and the per-suite grand total — equal the number of records. -/
theorem claim4_snapshot_sums (tests : List Record) :
    sumVals (get_snapshot tests).totals = tests.length
    ∧ osum (get_snapshot tests).per_suite = tests.length := by
  have main : ∀ (l : List Record) (acc : Snapshot),
      sumVals (l.foldl snapStep acc).totals = sumVals acc.totals + l.length
      ∧ osum (l.foldl snapStep acc).per_suite = osum acc.per_suite + l.length := by
    intro l
    induction l with
    | nil => intro acc; simp
    | cons t ts ih =>
      intro acc
      simp only [List.foldl_cons, List.length_cons]
      obtain ⟨h1, h2⟩ := ih (snapStep acc t)
      constructor
      · rw [h1, snapStep_totals, sumVals_bump]
        omega
      · rw [h2, snapStep_osum]
        omega
  obtain ⟨h1, h2⟩ := main tests snapInit
  constructor
  · show sumVals (tests.foldl snapStep snapInit).totals = tests.length
    rw [h1]
    have hz : sumVals snapInit.totals = 0 := by decide
    omega
  · show osum (tests.foldl snapStep snapInit).per_suite = tests.length
    rw [h2]
    have hz : osum snapInit.per_suite = 0 := rfl
    omega

/-- Incrementing bucket `k` changes only bucket `k`'s count. -/
theorem alookupD_bump (m : List (String × Nat)) (k q : String) :
    alookupD (bump m k) q 0 = alookupD m q 0 + (if k = q then 1 else 0) := by
  induction m with
  | nil =>
    by_cases hk : k = q
    · subst hk
      simp [bump, aset, alookupD, alookup]
    · simp [bump, aset, alookupD, alookup, hk]
  | cons hd tl ih =>
    rcases hd with ⟨k1, v⟩
    by_cases hk1 : k1 = k
    · subst hk1
      have hb : bump ((k1, v) :: tl) k1 = (k1, v + 1) :: tl := by
        simp [bump, aset, alookupD, alookup]
      rw [hb]
      by_cases hq : k1 = q
      · subst hq
        simp [alookupD, alookup]
      · simp [alookupD, alookup, hq]
    · have hb : bump ((k1, v) :: tl) k = (k1, v) :: bump tl k := by
        simp [bump, aset, alookupD, alookup, hk1]
      rw [hb]
      by_cases hq : k1 = q
      · have hkq : ¬(k = q) := fun h => hk1 (hq.trans h.symm)
        simp [alookupD, alookup, hq, hkq]
      · simp only [alookupD, alookup, if_neg hq]
        exact ih

/-- Lookup after `aset`. -/
theorem alookup_aset {β : Type} (m : List (String × β)) (k q : String) (v : β) :
    alookup (aset m k v) q = if k = q then some v else alookup m q := by
  induction m with
  | nil => simp [aset, alookup]
  | cons hd tl ih =>
    rcases hd with ⟨k1, v1⟩
    by_cases hk1 : k1 = k
    · subst hk1
      simp only [aset, if_pos rfl, alookup]
      by_cases hq : k1 = q
      · rw [if_pos hq, if_pos hq]
      · rw [if_neg hq, if_neg hq, if_neg hq]
    · simp only [aset, if_neg hk1, alookup]
      by_cases hq : k1 = q
      · have hkq : ¬(k = q) := fun h => hk1 (h.symm ▸ hq)
        rw [if_pos hq, if_neg hkq, if_pos hq]
      · rw [if_neg hq, if_neg hq, ih]

/-- Appending a differently-keyed entry does not change a lookup. -/
theorem alookup_append_single_ne {β : Type} (m : List (String × β)) (k : String) (v : β)
    (s : String) (h : k ≠ s) : alookup (m ++ [(k, v)]) s = alookup m s := by
  induction m with
  | nil => simp [alookup, h]
  | cons hd tl ih =>
    rcases hd with ⟨k1, v1⟩
    simp only [List.cons_append, alookup]
    split
    · rfl
    · exact ih

/-- `setdefault` on a different key does not change a lookup. -/
theorem alookup_setdef_ne {β : Type} (ps : List (String × β)) (k : String) (v : β)
    (s : String) (h : k ≠ s) : alookup (setdef ps k v) s = alookup ps s := by
  unfold setdef
  split
  · rfl
  · exact alookup_append_single_ne ps k v s h

/-- All five preset buckets of the initial counter dictionary are 0,
and so is any absent bucket. -/
theorem alookupD_totalsInit (q : String) : alookupD totalsInit q 0 = 0 := by
  simp only [totalsInit, alookupD, alookup]
  split_ifs <;> rfl

/-- Defaulting an absent suite to the zero dictionary or to the empty
dictionary reads the same counts. -/
theorem alookupD_getD_init (o : Option (List (String × Nat))) (q : String) :
    alookupD (o.getD totalsInit) q 0 = alookupD (o.getD []) q 0 := by
  cases o with
  | none =>
    simp only [Option.getD_none]
    rw [alookupD_totalsInit]
    rfl
  | some i => rfl

/-- One snapshot step adds one to the suite/bucket cell selected by
the record's suite name and category key, and leaves every other cell
unchanged. -/
theorem snapStep_suiteCount (acc : Snapshot) (t : Record) (s q : String) :
    suiteCount (snapStep acc t).per_suite s q
      = suiteCount acc.per_suite s q + (if snameOf t = s ∧ snapKey t = q then 1 else 0) := by
  rw [snapStep_per_suite]
  by_cases hs : snameOf t = s
  · have hlook : alookup (setdef acc.per_suite (snameOf t) totalsInit) (snameOf t)
        = some ((alookup acc.per_suite (snameOf t)).getD totalsInit) :=
      alookup_setdef_self acc.per_suite (snameOf t) totalsInit
    unfold suiteCount
    unfold alookupD
    rw [alookup_aset]
    rw [if_pos hs]
    simp only [Option.getD_some]
    rw [hlook]
    simp only [Option.getD_some]
    have hb := alookupD_bump ((alookup acc.per_suite (snameOf t)).getD totalsInit) (snapKey t) q
    unfold alookupD at hb
    rw [hb]
    have hgd := alookupD_getD_init (alookup acc.per_suite (snameOf t)) q
    unfold alookupD at hgd
    rw [hgd, hs]
    by_cases hkq : snapKey t = q
    · rw [if_pos hkq, if_pos ⟨rfl, hkq⟩]
    · rw [if_neg hkq, if_neg (fun hc => hkq hc.2)]
  · unfold suiteCount
    unfold alookupD
    rw [alookup_aset]
    rw [if_neg hs]
    rw [alookup_setdef_ne acc.per_suite (snameOf t) totalsInit s hs]
    rw [if_neg (fun hc => hs hc.1)]
    simp

/-- The totals bucket `q` counts exactly the records whose category
key is `q`. -/
theorem snapFold_totals_count (l : List Record) (acc : Snapshot) (q : String) :
    alookupD (l.foldl snapStep acc).totals q 0
      = alookupD acc.totals q 0 + l.countP (fun r => snapKey r = q) := by
  induction l generalizing acc with
  | nil => simp
  | cons t ts ih =>
    simp only [List.foldl_cons, List.countP_cons]
    rw [ih (snapStep acc t)]
    have hstep : alookupD (snapStep acc t).totals q 0
        = alookupD acc.totals q 0 + (if snapKey t = q then 1 else 0) := by
      rw [snapStep_totals, alookupD_bump]
    rw [hstep]
    by_cases h : snapKey t = q <;> simp [h] <;> omega

/-- The per-suite cell `(s, q)` counts exactly the records with suite
name `s` and category key `q`. -/
theorem snapFold_suiteCount (l : List Record) (acc : Snapshot) (s q : String) :
    suiteCount (l.foldl snapStep acc).per_suite s q
      = suiteCount acc.per_suite s q + l.countP (fun r => snameOf r = s ∧ snapKey r = q) := by
  induction l generalizing acc with
  | nil => simp
  | cons t ts ih =>
    simp only [List.foldl_cons, List.countP_cons]
    rw [ih (snapStep acc t), snapStep_suiteCount]
    by_cases h : snameOf t = s ∧ snapKey t = q <;> simp [h] <;> omega

/-- Claim C5 counterexample: a non-flaky record whose final status is
`timedout` (outside {passed, failed, skipped}) is counted under a
dynamically created `timedout` bucket, not under `unknown`, both in
the totals and in its suite's mapping. -/
theorem claim5_counterexample :
    snapKey c5rec = "timedout"
    ∧ alookupD (get_snapshot [c5rec]).totals "unknown" 0 = 0
    ∧ alookupD (get_snapshot [c5rec]).totals "timedout" 0 = 1
    ∧ suiteCount (get_snapshot [c5rec]).per_suite "Suite A" "unknown" = 0
    ∧ suiteCount (get_snapshot [c5rec]).per_suite "Suite A" "timedout" = 1 := by
  decide

/-- Claim C5 (amended): each record increments exactly the single
bucket named by its category key — `flaky` when flaky, else its
normalized final status itself (a new bucket when the status lies
outside the preset vocabulary), with `unknown` only when that status
is empty — so bucket `q` of totals counts the records keyed `q`, and
cell `(s, q)` of the per-suite mapping counts the records with suite
name `s` and key `q`; no record is counted in more than one bucket. -/
theorem claim5_amended (tests : List Record) (s q : String) :
    alookupD (get_snapshot tests).totals q 0 = tests.countP (fun r => snapKey r = q)
    ∧ suiteCount (get_snapshot tests).per_suite s q
        = tests.countP (fun r => snameOf r = s ∧ snapKey r = q) := by
  constructor
  · have h := snapFold_totals_count tests snapInit q
    show alookupD (tests.foldl snapStep snapInit).totals q 0 = _
    rw [h]
    have hz : alookupD snapInit.totals q 0 = 0 := alookupD_totalsInit q
    omega
  · have h := snapFold_suiteCount tests snapInit s q
    show suiteCount (tests.foldl snapStep snapInit).per_suite s q = _
    rw [h]
    have hz : suiteCount snapInit.per_suite s q = 0 := rfl
    omega

/-! ## Claim C10: flaky records appear in three named lists -/

/-- One snapshot step never removes entries from the named lists. -/
theorem snapStep_list_mono (acc : Snapshot) (t : Record) (x : String) :
    (x ∈ acc.passed_tests → x ∈ (snapStep acc t).passed_tests)
    ∧ (x ∈ acc.flaky_tests → x ∈ (snapStep acc t).flaky_tests)
    ∧ (x ∈ acc.failed_once_names → x ∈ (snapStep acc t).failed_once_names) := by
  refine ⟨?_, ?_, ?_⟩ <;> intro hx
  · show x ∈ (if finalStatusOf t ∈ PASS then acc.passed_tests ++ [labelOf t] else acc.passed_tests)
    split
    · exact List.mem_append_left _ hx
    · exact hx
  · show x ∈ (if t.is_flaky = true then acc.flaky_tests ++ [labelOf t] else acc.flaky_tests)
    split
    · exact List.mem_append_left _ hx
    · exact hx
  · show x ∈ (if t.failed_once = true then acc.failed_once_names ++ [labelOf t]
        else acc.failed_once_names)
    split
    · exact List.mem_append_left _ hx
    · exact hx

/-- One snapshot step appends the record's label to each list whose
condition the record satisfies. -/
theorem snapStep_adds (acc : Snapshot) (t : Record) :
    (finalStatusOf t ∈ PASS → labelOf t ∈ (snapStep acc t).passed_tests)
    ∧ (t.is_flaky = true → labelOf t ∈ (snapStep acc t).flaky_tests)
    ∧ (t.failed_once = true → labelOf t ∈ (snapStep acc t).failed_once_names) := by
  refine ⟨?_, ?_, ?_⟩ <;> intro h
  · show labelOf t ∈ (if finalStatusOf t ∈ PASS then acc.passed_tests ++ [labelOf t]
        else acc.passed_tests)
    rw [if_pos h]
    exact List.mem_append_right _ (List.mem_singleton_self _)
  · show labelOf t ∈ (if t.is_flaky = true then acc.flaky_tests ++ [labelOf t]
        else acc.flaky_tests)
    rw [if_pos h]
    exact List.mem_append_right _ (List.mem_singleton_self _)
  · show labelOf t ∈ (if t.failed_once = true then acc.failed_once_names ++ [labelOf t]
        else acc.failed_once_names)
    rw [if_pos h]
    exact List.mem_append_right _ (List.mem_singleton_self _)

/-- Folding more records preserves list membership. -/
theorem snapFold_mono (l : List Record) (x : String) :
    ∀ acc : Snapshot,
      (x ∈ acc.passed_tests → x ∈ (l.foldl snapStep acc).passed_tests)
      ∧ (x ∈ acc.flaky_tests → x ∈ (l.foldl snapStep acc).flaky_tests)
      ∧ (x ∈ acc.failed_once_names → x ∈ (l.foldl snapStep acc).failed_once_names) := by
  induction l with
  | nil => intro acc; exact ⟨id, id, id⟩
  | cons a as ih =>
    intro acc
    simp only [List.foldl_cons]
    obtain ⟨m1, m2, m3⟩ := snapStep_list_mono acc a x
    obtain ⟨f1, f2, f3⟩ := ih (snapStep acc a)
    exact ⟨fun h => f1 (m1 h), fun h => f2 (m2 h), fun h => f3 (m3 h)⟩

/-- A record in the fold that is flaky, failed once, and finally
passed lands in all three named lists. -/
theorem snapFold_mem_lists (r : Record)
    (hf : r.is_flaky = true) (ho : r.failed_once = true) (hp : finalStatusOf r ∈ PASS)
    (l : List Record) :
    ∀ acc : Snapshot, r ∈ l →
      labelOf r ∈ (l.foldl snapStep acc).flaky_tests
      ∧ labelOf r ∈ (l.foldl snapStep acc).passed_tests
      ∧ labelOf r ∈ (l.foldl snapStep acc).failed_once_names := by
  induction l with
  | nil => intro acc h; cases h
  | cons a as ih =>
    intro acc hmem
    simp only [List.foldl_cons]
    rcases List.mem_cons.mp hmem with rfl | hmem2
    · obtain ⟨s1, s2, s3⟩ := snapStep_adds acc r
      obtain ⟨f1, f2, f3⟩ := snapFold_mono as (labelOf r) (snapStep acc r)
      exact ⟨f2 (s2 hf), f1 (s1 hp), f3 (s3 ho)⟩
    · exact ih (snapStep acc a) hmem2

/-- Claim C10: a flaky record (failed once, final status passed) is
put into all three named lists at once — flaky, passed, and
failed-at-least-once — so the flaky-over-passed precedence applies
only to the numeric totals, not to the named lists. -/
theorem claim10_flaky_in_three_lists (tests : List Record) (r : Record)
    (hmem : r ∈ tests) (hf : r.is_flaky = true) (ho : r.failed_once = true)
    (hp : r.final_status = "passed") :
    labelOf r ∈ (get_snapshot tests).flaky_tests
    ∧ labelOf r ∈ (get_snapshot tests).passed_tests
    ∧ labelOf r ∈ (get_snapshot tests).failed_once_names := by
  have hfs : finalStatusOf r ∈ PASS := by
    have h1 : _norm_status (some "passed") = "passed" := by decide
    simp [finalStatusOf, hp, h1, PASS]
  exact snapFold_mem_lists r hf ho hfs tests snapInit hmem

/-- Witness for C10 at a concrete flaky record. -/
theorem claim10_flaky_in_three_lists_witness :
    labelOf c10rec ∈ (get_snapshot [c10rec]).flaky_tests
    ∧ labelOf c10rec ∈ (get_snapshot [c10rec]).passed_tests
    ∧ labelOf c10rec ∈ (get_snapshot [c10rec]).failed_once_names :=
  claim10_flaky_in_three_lists [c10rec] c10rec (List.mem_singleton_self _) rfl rfl rfl

/-! ## Claim C8: the classifier confidence gate -/

/-- With `predict_proba` available, the fallback stage is the
confidence-gated choice between the help text and the canned answer
keyed by the predicted class. -/
theorem nbFallback_proba (clf : Classifier) (answers : List String) (helpText : String)
    (hp : clf.hasPredictProba = true) :
    nbFallback clf answers helpText =
      (if clf.proba.getD (argmaxIdx clf.proba) 0 < CONF_THRESHOLD then helpText
       else answers.getD (clf.classes.getD (argmaxIdx clf.proba) 0) "") := by
  unfold nbFallback
  rw [hp]
  rfl

/-- Claim C8: when a query passes the greeting, vague and
deterministic-aggregate stages without matching and the classifier
exposes a confidence score, a top-class confidence strictly below 0.45
makes the response the snapshot/help text, and a confidence at or
above 0.45 makes it the canned answer keyed by the predicted class. -/
theorem claim8_confidence_gate (ws : List String) (tests : List Record)
    (clf : Classifier) (answers : List String)
    (hg : is_greeting ws = false) (hv : isVague ws = false)
    (ha : handle_aggregate_intents ws tests = none)
    (hp : clf.hasPredictProba = true) :
    (clf.proba.getD (argmaxIdx clf.proba) 0 < CONF_THRESHOLD →
      respond ws tests clf answers = _short_help tests)
    ∧ (CONF_THRESHOLD ≤ clf.proba.getD (argmaxIdx clf.proba) 0 →
      respond ws tests clf answers
        = answers.getD (clf.classes.getD (argmaxIdx clf.proba) 0) "") := by
  have hr : respond ws tests clf answers
      = (if clf.proba.getD (argmaxIdx clf.proba) 0 < CONF_THRESHOLD then _short_help tests
         else answers.getD (clf.classes.getD (argmaxIdx clf.proba) 0) "") := by
    unfold respond
    rw [hg, hv, ha]
    simp only [Bool.false_eq_true, if_false]
    exact nbFallback_proba clf answers (_short_help tests) hp
  constructor
  · intro hlt
    rw [hr, if_pos hlt]
  · intro hge
    rw [hr, if_neg (not_lt.mpr hge)]

/-- Witness for C8: confidence 0.3 < 0.45 yields the help text. -/
theorem claim8_confidence_gate_witness :
    respond ["status", "please"] [] c8clf ["canned"] = _short_help [] :=
  (claim8_confidence_gate ["status", "please"] [] c8clf ["canned"]
    (by decide) (by decide) (by decide) rfl).1
    (by norm_num [c8clf, argmaxIdx, CONF_THRESHOLD])
